import Mathlib

/-!
Shallow embedding of `src/index.js` of TF2Autobot/node-request-retry-dayjs:
a retry policy for the `requestretry` package, consisting of
`retryStrategy` (should an attempt be retried?), `delayStrategy`
(milliseconds to wait before the next attempt, honouring `Retry-After`
headers on 429 responses) and `errorHandler` (builds the terminal error
and neutralizes the completion callbacks).

JavaScript values are embedded as follows: machine integers do not occur
(attempt counters and delays are plain numbers); `undefined`/absent values
become `Option`; thrown exceptions become `Except String`; the mutable
`this` of the strategies (`this.attempts`, `this.options`, `this.wait`)
becomes an explicit `Ctx` record, and functions that mutate it return the
new field values explicitly.
-/

set_option autoImplicit false
set_option linter.unusedVariables false

namespace RequestRetryDayjs

/-- A JavaScript `Error` object as far as the strategies inspect it: only
its `message` is ever read. -/
structure JsError where
  message : String
  deriving Repr, DecidableEq

/-- A response body as the strategies see it: either a string or a
structured (JSON) value. `typeof body` is `'object'` exactly for `bobj`. -/
inductive Body where
  | bstr : String → Body
  | bobj : Body
  deriving Repr, DecidableEq

/-- An HTTP response: status code plus headers. Headers are a JavaScript
object, embedded as an association list with exact string keys (Node's
http module lowercases incoming header names, but the embedding keeps
arbitrary keys because the source indexes the object with two literal
spellings). -/
structure Response where
  statusCode : Nat
  headers : List (String × String)
  deriving Repr, DecidableEq

/-- The `requestretry` options visible to the strategies
(`this.options`). `src/index.js` lines 6-11 configure
`timeout: 3000, maxAttempts: 3` and the two strategies; `retryDelay` is
left at requestretry's default of 5000 ms and `retryAfter` (the
maximum-wait ceiling read at line 100) is not set unless a caller passes
it, hence `Option`. -/
structure Options where
  maxAttempts : Nat
  method : String
  json : Bool
  retryDelay : Nat
  retryAfter : Option Int
  deriving Repr, DecidableEq

/-- The mutable per-request state (`this`) threaded through the
strategies: `this.attempts`, `this.options` and `this.wait` (the wait
recorded at line 98, read back by `errorHandler` at line 138). -/
structure Ctx where
  attempts : Nat
  options : Options
  wait : Option Int
  deriving Repr, DecidableEq

/-- The decision `retryStrategy` communicates to requestretry: `retry`
is the literal `true` return, `succeed` is the bare `false` of line 43
(successful response, no error handler), `fail` is a `false` returned
through `errorHandler.call(this, ...)`. -/
inductive Verdict where
  | retry
  | succeed
  | fail
  deriving Repr, DecidableEq

/-- JavaScript truthiness of the `body` argument (`!body` at line 35):
`undefined` and the empty string are falsy, everything else is truthy. -/
def jsTruthyBody : Option Body → Bool
  | none => false
  | some (Body.bstr s) => !(s == "")
  | some Body.bobj => true

/-- The test `typeof body === 'object'` of line 35: true exactly for a
structured (JSON) body. -/
def jsTypeofObject : Option Body → Bool
  | some Body.bobj => true
  | _ => false

/-- JavaScript `String.prototype.startsWith`, used at line 22 to detect
proxy/tunnel failures. -/
def jsStartsWith (s pre : String) : Bool :=
  s.data.take pre.data.length == pre.data

/-- Modelled from the spec: `request.RetryStrategies.NetworkError` comes
from the external `requestretry` package, not from this repository. Per
the spec it classifies a generic network-class error on an
`HttpResponse`-less outcome; for a null `err` it returns null (so the
`networkError !== null` test at line 30 fails whenever `err` is null,
which is the only way line 29 is reached, since every `err` branch
returns at lines 21-27). -/
def networkErrorClass (err : Option JsError) (response : Option Response) : Option JsError :=
  match response with
  | some _ => none
  | none => err

/-- `retryStrategy` (src/index.js lines 20-62). The JavaScript either
returns a boolean (possibly via `errorHandler`, which returns `false`) or
throws a `TypeError` when `err` is null, no network error is classified,
and `response` is `undefined` (line 41 reads `response.statusCode`);
the embedding surfaces that last case as `Except.error`. -/
def retryStrategy (err : Option JsError) (response : Option Response) (body : Option Body)
    (ctx : Ctx) : Except String Verdict :=
  match err with
  | some e =>
    if jsStartsWith e.message "tunneling socket could not be established" then
      Except.ok Verdict.fail
    else if 2 ≤ ctx.attempts then Except.ok Verdict.fail
    else Except.ok Verdict.retry
  | none =>
    if (networkErrorClass none response).isSome then
      if ctx.attempts ≥ ctx.options.maxAttempts then Except.ok Verdict.fail
      else Except.ok Verdict.retry
    else if ctx.options.json && (!jsTruthyBody body || !jsTypeofObject body) then
      Except.ok Verdict.fail
    else
      match response with
      | none => Except.error "TypeError: Cannot read properties of undefined"
      | some r =>
        if 200 ≤ r.statusCode ∧ r.statusCode ≤ 399 then Except.ok Verdict.succeed
        else if r.statusCode = 500 ∧ ctx.options.method ≠ "GET" then Except.ok Verdict.fail
        else if 500 ≤ r.statusCode ∧ r.statusCode ≤ 599 ∧ 2 ≤ ctx.attempts then
          Except.ok Verdict.fail
        else if r.statusCode = 429 ∧ 2 ≤ ctx.attempts then Except.ok Verdict.fail
        else if r.statusCode ≠ 429 ∧ 400 ≤ r.statusCode ∧ r.statusCode ≤ 499 then
          Except.ok Verdict.fail
        else if ctx.attempts ≥ ctx.options.maxAttempts then Except.ok Verdict.fail
        else Except.ok Verdict.retry

/-- Exact-key lookup in a JavaScript object: `response.headers[k]`. -/
def lookupExact (hs : List (String × String)) (k : String) : Option String :=
  (hs.find? (fun p => p.1 == k)).map (fun p => p.2)

/-- JavaScript `a || b` on string-or-undefined values: `a` unless `a` is
`undefined` or the (falsy) empty string. -/
def jsOrStr : Option String → Option String → Option String
  | some v, b => if v == "" then b else some v
  | none, b => b

/-- The header lookup of line 76:
`response.headers['Retry-After'] || response.headers['retry-after']` —
exactly two literal spellings, no case folding. -/
def lookupRA (hs : List (String × String)) : Option String :=
  jsOrStr (lookupExact hs "Retry-After") (lookupExact hs "retry-after")

/-- ASCII digit test for one character, as matched by `\d` in the
regex `^\d+$` of line 83. -/
def isDigitAscii (c : Char) : Bool :=
  48 ≤ c.toNat && c.toNat ≤ 57

/-- The regex test `/^\d+$/.test(retryAfter)` of line 83: non-empty and
all ASCII digits. -/
def isAllDigits (s : String) : Bool :=
  !s.data.isEmpty && s.data.all isDigitAscii

/-- `parseInt(retryAfter)` of line 85, on a string already known to match
`^\d+$`: plain base-10 value of the digit string. -/
def parseIntDec (s : String) : Nat :=
  s.data.foldl (fun a c => a * 10 + (c.toNat - 48)) 0

/-- The comparison `wait <= this.options.retryAfter` of line 100 under
JavaScript semantics: comparing against `undefined` is false. -/
def jsLeOpt (w : Int) : Option Int → Bool
  | some c => decide (w ≤ c)
  | none => false

/-- The TypeError raised at line 89: moment.js (and dayjs) objects expose
`isValid()`; `isInvalid` is not a member, so `date.isInvalid()` reads
`undefined` and calls it, which throws before any parsing result is
consulted. -/
def momentIsInvalidError : String :=
  "TypeError: date.isInvalid is not a function"

/-- What `delayStrategy` produces: the returned delay, the value of
`this.wait` after the call (line 98 sets it on the header path; every
other path leaves it untouched — nothing in the source clears it), and
whether line 106 scheduled the `process.nextTick` callback that clears
the retry timeout and invokes `errorHandler`. -/
structure DelayResult where
  delay : Int
  ctxWait : Option Int
  cancelScheduled : Bool
  deriving Repr, DecidableEq

/-- `delayStrategy` (src/index.js lines 71-112). The early return for
`!response || response.statusCode !== 429` (line 72) and for an absent
header (line 77) yield `this.options.retryDelay` with `this.wait`
unchanged. An all-digit `Retry-After` yields seconds × 1000, recorded in
`this.wait`, and returned whether or not it exceeds the
`options.retryAfter` ceiling; exceeding the ceiling additionally
schedules the cancellation callback (lines 100-111). Any other header
value reaches `date.isInvalid()` at line 89 and throws. -/
def delayStrategy (err : Option JsError) (response : Option Response) (ctx : Ctx) :
    Except String DelayResult :=
  match response with
  | none => Except.ok ⟨(ctx.options.retryDelay : Int), ctx.wait, false⟩
  | some r =>
    if r.statusCode = 429 then
      match lookupRA r.headers with
      | none => Except.ok ⟨(ctx.options.retryDelay : Int), ctx.wait, false⟩
      | some ra =>
        if isAllDigits ra then
          Except.ok ⟨(parseIntDec ra : Int) * 1000, some ((parseIntDec ra : Int) * 1000),
            !jsLeOpt ((parseIntDec ra : Int) * 1000) ctx.options.retryAfter⟩
        else Except.error momentIsInvalidError
    else Except.ok ⟨(ctx.options.retryDelay : Int), ctx.wait, false⟩

/-- Modelled from the spec: the status-code → reason-phrase mapping of
the external `http-status` package (`status[response.statusCode]`,
line 124), for the codes exercised in this development; an unknown code
yields `undefined`, and `new Error(undefined)` has the empty message. -/
def statusText : Nat → String
  | 200 => "OK"
  | 400 => "Bad Request"
  | 404 => "Not Found"
  | 429 => "Too Many Requests"
  | 500 => "Internal Server Error"
  | 503 => "Service Unavailable"
  | _ => ""

/-- The terminal error assembled by `errorHandler` (lines 121-140): the
final state of the `err` object handed to `this.reply`. -/
structure TerminalError where
  message : String
  statusCode : Option Nat
  body : Option Body
  attempts : Nat
  retryAfter : Option Int
  deriving Repr, DecidableEq

/-- The error-construction half of `errorHandler` (lines 121-140):
synthesize a message when no error was passed (status text if a response
exists, the generic message otherwise), then attach `statusCode` if a
response is present, `body` if the body is truthy, `attempts` always,
and `retryAfter` if `this.wait` is not `undefined`. -/
def mkTerminalError (err : Option JsError) (response : Option Response) (body : Option Body)
    (ctx : Ctx) : TerminalError :=
  let msg :=
    match err with
    | some e => e.message
    | none =>
      match response with
      | some r => statusText r.statusCode
      | none => "Too many failed attempts"
  { message := msg
    statusCode := response.map (fun r => r.statusCode)
    body := if jsTruthyBody body then body else none
    attempts := ctx.attempts
    retryAfter := ctx.wait }

/-! ### C1 — transport-error retry cap -/

/-- C1 (counterexample): the claim says a non-proxy transport error at
`attempts < maxAttempts` is retried for any configured `maxAttempts`; at
`attempts = 2 < maxAttempts = 3` (the module's configured default) the
code instead fails, because line 26 compares against the constant 2, not
against `maxAttempts`. -/
theorem c1_counterexample :
    retryStrategy (some ⟨"socket hang up"⟩) none none
        ⟨2, ⟨3, "GET", false, 5000, none⟩, none⟩ = Except.ok Verdict.fail ∧ 2 < 3 :=
  ⟨rfl, by decide⟩

/-- C1 (amended): for every non-proxy transport-error outcome the retry
decider retries while `attempts < 2` and fails once `attempts ≥ 2`,
regardless of the configured `maxAttempts`. -/
theorem c1_transport_error_cap_is_two (msg : String) (response : Option Response)
    (body : Option Body) (ctx : Ctx)
    (h : jsStartsWith msg "tunneling socket could not be established" = false) :
    retryStrategy (some ⟨msg⟩) response body ctx =
      Except.ok (if 2 ≤ ctx.attempts then Verdict.fail else Verdict.retry) := by
  by_cases h2 : 2 ≤ ctx.attempts <;> simp [retryStrategy, h, h2]

/-- C1 (witness): a first-attempt "socket hang up" is retried. -/
theorem c1_transport_error_cap_is_two_witness :
    retryStrategy (some ⟨"socket hang up"⟩) none none
        ⟨1, ⟨3, "GET", false, 5000, none⟩, none⟩ = Except.ok Verdict.retry :=
  c1_transport_error_cap_is_two "socket hang up" none none
    ⟨1, ⟨3, "GET", false, 5000, none⟩, none⟩ (by decide)

/-! ### C2 / C5 — the default-delay path -/

/-- The outcomes on which `delayStrategy` takes an early-return path and
computes no header-derived wait: no response, a non-429 status, or a 429
whose `Retry-After` lookup finds nothing. -/
def noHeaderWait : Option Response → Bool
  | none => true
  | some r => !(r.statusCode == 429) || (lookupRA r.headers).isNone

/-- On every outcome with no header-derived wait, `delayStrategy` returns
the configured `retryDelay` unchanged and leaves `this.wait` exactly as it
was (no clearing, no cancellation). -/
theorem delayStrategy_default (err : Option JsError) (response : Option Response) (ctx : Ctx)
    (h : noHeaderWait response = true) :
    delayStrategy err response ctx =
      Except.ok ⟨(ctx.options.retryDelay : Int), ctx.wait, false⟩ := by
  match response with
  | none => rfl
  | some r =>
    simp only [noHeaderWait, Bool.or_eq_true, Bool.not_eq_true', beq_eq_false_iff_ne, ne_eq,
      Option.isNone_iff_eq_none] at h
    rcases h with h | h
    · simp [delayStrategy, h]
    · by_cases h429 : r.statusCode = 429
      · simp [delayStrategy, h429, h]
      · simp [delayStrategy, h429]

/-- C2 (counterexample): the claim puts the delay of a first-attempt
non-429 outcome in `[2^0*1000, 2^0*1000 + 1000) = [1000, 2000)`; with
`retryDelay` at requestretry's default of 5000 ms the code returns
5000 ms, outside that interval. -/
theorem c2_counterexample :
    delayStrategy none (some ⟨500, []⟩) ⟨1, ⟨3, "GET", false, 5000, none⟩, none⟩ =
      Except.ok ⟨5000, none, false⟩ ∧
    ¬((2 ^ (1 - 1) * 1000 : Int) ≤ 5000 ∧ (5000 : Int) < 2 ^ (1 - 1) * 1000 + 1000) :=
  ⟨rfl, by decide⟩

/-- C2 (amended): for every attempt whose outcome is not a 429 response
with a found `Retry-After` header, the delay calculator returns the
configured constant `retryDelay` — independent of the attempt number,
with no exponential backoff and no random jitter. -/
theorem c2_delay_is_constant (err : Option JsError) (response : Option Response) (ctx : Ctx)
    (h : noHeaderWait response = true) :
    (delayStrategy err response ctx).toOption.map DelayResult.delay =
      some (ctx.options.retryDelay : Int) := by
  rw [delayStrategy_default err response ctx h]; rfl

/-- C2 (witness): a 500 response at attempt 4 still gets the constant
5000 ms delay. -/
theorem c2_delay_is_constant_witness :
    (delayStrategy none (some ⟨500, []⟩)
        ⟨4, ⟨3, "GET", false, 5000, none⟩, none⟩).toOption.map DelayResult.delay =
      some 5000 :=
  c2_delay_is_constant none (some ⟨500, []⟩) ⟨4, ⟨3, "GET", false, 5000, none⟩, none⟩ (by decide)

/-- C5 (counterexample): a wait of 3000 ms recorded on an earlier attempt
survives a later `delayStrategy` invocation that sets no wait (a 500
response), and a terminal error built afterwards still carries
`retryAfter = 3000` — the claim says the stored wait is cleared at the
start of such an invocation. -/
theorem c5_counterexample :
    delayStrategy none (some ⟨500, []⟩) ⟨2, ⟨3, "GET", false, 5000, none⟩, some 3000⟩ =
      Except.ok ⟨5000, some 3000, false⟩ ∧
    (mkTerminalError none none none
        ⟨2, ⟨3, "GET", false, 5000, none⟩, some 3000⟩).retryAfter = some 3000 :=
  ⟨rfl, rfl⟩

/-- C5 (amended): `delayStrategy` never clears `this.wait`; an invocation
that computes no header-derived wait leaves it exactly as it was, so a
terminal error produced afterwards carries whatever `retryAfter` value an
earlier attempt recorded. -/
theorem c5_stale_wait_persists (err : Option JsError) (response : Option Response) (ctx : Ctx)
    (h : noHeaderWait response = true) :
    delayStrategy err response ctx =
      Except.ok ⟨(ctx.options.retryDelay : Int), ctx.wait, false⟩ ∧
    (mkTerminalError err response none ctx).retryAfter = ctx.wait :=
  ⟨delayStrategy_default err response ctx h, rfl⟩

/-- C5 (witness): concrete instance of the persistence of a stale wait
across a transport-error delay invocation. -/
theorem c5_stale_wait_persists_witness :
    delayStrategy none none ⟨3, ⟨3, "GET", false, 5000, none⟩, some 1000⟩ =
      Except.ok ⟨5000, some 1000, false⟩ ∧
    (mkTerminalError none none none
        ⟨3, ⟨3, "GET", false, 5000, none⟩, some 1000⟩).retryAfter = some 1000 :=
  c5_stale_wait_persists none none ⟨3, ⟨3, "GET", false, 5000, none⟩, some 1000⟩ (by decide)

/-! ### C3 — maximum-wait ceiling guard -/

/-- C3: for a 429 response with an all-digit `Retry-After`, the computed
wait is recorded in `this.wait` and returned in both cases; when it is at
or below the configured `options.retryAfter` ceiling nothing is
cancelled, and when it exceeds the ceiling the cancellation callback
(clear the retry timeout, call the error handler) is scheduled while the
originally computed wait is still the returned and recorded value. -/
theorem c3_ceiling_guard (err : Option JsError) (r : Response) (ctx : Ctx) (v : String)
    (ceil : Int) (h429 : r.statusCode = 429) (hv : lookupRA r.headers = some v)
    (hd : isAllDigits v = true) (hc : ctx.options.retryAfter = some ceil) :
    ((parseIntDec v : Int) * 1000 ≤ ceil →
      delayStrategy err (some r) ctx =
        Except.ok ⟨(parseIntDec v : Int) * 1000, some ((parseIntDec v : Int) * 1000), false⟩) ∧
    (ceil < (parseIntDec v : Int) * 1000 →
      delayStrategy err (some r) ctx =
        Except.ok ⟨(parseIntDec v : Int) * 1000, some ((parseIntDec v : Int) * 1000), true⟩) := by
  refine ⟨fun hle => ?_, fun hlt => ?_⟩
  · simp [delayStrategy, h429, hv, hd, jsLeOpt, hc, hle]
  · simp [delayStrategy, h429, hv, hd, jsLeOpt, hc, not_le.mpr hlt]

/-- C3 (witness): `Retry-After: 10` against a 5000 ms ceiling returns and
records 10000 ms while scheduling the cancellation. -/
theorem c3_ceiling_guard_witness :
    delayStrategy none (some ⟨429, [("Retry-After", "10")]⟩)
        ⟨1, ⟨3, "GET", false, 5000, some 5000⟩, none⟩ =
      Except.ok ⟨10000, some 10000, true⟩ :=
  (c3_ceiling_guard none ⟨429, [("Retry-After", "10")]⟩
    ⟨1, ⟨3, "GET", false, 5000, some 5000⟩, none⟩ "10" 5000 rfl (by decide) (by decide)
    rfl).2 (by decide)

/-! ### C6 — non-numeric Retry-After -/

/-- C6 (code bug): the claim (and the source's own comments at lines 90
and 93) say a non-all-digit `Retry-After` is parsed as an HTTP-date, with
a fallback to the default delay when unparseable; instead the code calls
`date.isInvalid()` — a method that exists on neither moment nor dayjs
objects (the API is `isValid()`) — so the delay strategy throws a
TypeError for every non-all-digit header value, parseable or not. -/
theorem c6_code_bug_isInvalid_throws :
    delayStrategy none
        (some ⟨429, [("Retry-After", "Wed, 21 Oct 2015 07:28:00 GMT")]⟩)
        ⟨1, ⟨3, "GET", false, 5000, none⟩, none⟩ =
      Except.error momentIsInvalidError :=
  rfl

/-! ### C9 — all-digit Retry-After -/

/-- C9: for every 429 response whose `Retry-After` lookup yields an
all-digit value, the returned delay is exactly that value times 1000
milliseconds. -/
theorem c9_numeric_retry_after (err : Option JsError) (r : Response) (ctx : Ctx) (v : String)
    (h429 : r.statusCode = 429) (hv : lookupRA r.headers = some v)
    (hd : isAllDigits v = true) :
    (delayStrategy err (some r) ctx).toOption.map DelayResult.delay =
      some ((parseIntDec v : Int) * 1000) := by
  simp [delayStrategy, h429, hv, hd, Except.toOption]

/-- C9 (witness): `Retry-After: 5` yields exactly 5000 ms. -/
theorem c9_numeric_retry_after_witness :
    (delayStrategy none (some ⟨429, [("Retry-After", "5")]⟩)
        ⟨1, ⟨3, "GET", false, 5000, some 5000⟩, none⟩).toOption.map DelayResult.delay =
      some 5000 :=
  c9_numeric_retry_after none ⟨429, [("Retry-After", "5")]⟩
    ⟨1, ⟨3, "GET", false, 5000, some 5000⟩, none⟩ "5" rfl (by decide) (by decide)

/-! ### C10 — header lookup casing -/

/-- C10 (counterexample): the claim says the `Retry-After` lookup is
case-insensitive; a 429 response carrying the header only under the
spelling `RETRY-AFTER` is not found, and the default 2000 ms `retryDelay`
is returned instead of the 5 × 1000 ms the header requests. -/
theorem c10_counterexample :
    delayStrategy none (some ⟨429, [("RETRY-AFTER", "5")]⟩)
        ⟨1, ⟨3, "GET", false, 2000, none⟩, none⟩ = Except.ok ⟨2000, none, false⟩ ∧
    (2000 : Int) ≠ 5 * 1000 :=
  ⟨rfl, by decide⟩

/-- C10 (amended): the lookup at line 76 indexes the header object with
exactly the two literal spellings `Retry-After` and `retry-after`; for a
429 response whose headers contain neither exact key (whatever other
casings appear), the delay calculator behaves as if the header were
absent and returns the default `retryDelay` unchanged. -/
theorem c10_exact_spellings_only (err : Option JsError) (r : Response) (ctx : Ctx)
    (h429 : r.statusCode = 429)
    (hk : ∀ p ∈ r.headers, p.1 ≠ "Retry-After" ∧ p.1 ≠ "retry-after") :
    delayStrategy err (some r) ctx =
      Except.ok ⟨(ctx.options.retryDelay : Int), ctx.wait, false⟩ := by
  have f1 : List.find? (fun p => p.1 == "Retry-After") r.headers = none := by
    rw [List.find?_eq_none]
    intro p hp
    simpa using (hk p hp).1
  have f2 : List.find? (fun p => p.1 == "retry-after") r.headers = none := by
    rw [List.find?_eq_none]
    intro p hp
    simpa using (hk p hp).2
  have h1 : lookupExact r.headers "Retry-After" = none := by simp [lookupExact, f1]
  have h2 : lookupExact r.headers "retry-after" = none := by simp [lookupExact, f2]
  have hra : lookupRA r.headers = none := by simp [lookupRA, h1, h2, jsOrStr]
  simp [delayStrategy, h429, hra]

/-- C10 (witness): the uppercase spelling is ignored and the 7000 ms
default applies. -/
theorem c10_exact_spellings_only_witness :
    delayStrategy none (some ⟨429, [("RETRY-AFTER", "5")]⟩)
        ⟨2, ⟨3, "GET", false, 7000, none⟩, none⟩ = Except.ok ⟨7000, none, false⟩ :=
  c10_exact_spellings_only none ⟨429, [("RETRY-AFTER", "5")]⟩
    ⟨2, ⟨3, "GET", false, 7000, none⟩, none⟩ rfl (by decide)

/-! ### C7 — terminal error fields -/

/-- C7 (counterexample): when `errorHandler` receives an existing error
("Expected JSON", raised at line 37) together with a 404 response and an
observed-but-empty body, the terminal error's message is the error's own
message, not the HTTP status text, and `body` is absent even though a
body was observed — both against the claim as stated. -/
theorem c7_counterexample :
    (mkTerminalError (some ⟨"Expected JSON"⟩) (some ⟨404, []⟩) (some (Body.bstr ""))
        ⟨1, ⟨3, "GET", true, 5000, none⟩, none⟩).message ≠ statusText 404 ∧
    (mkTerminalError (some ⟨"Expected JSON"⟩) (some ⟨404, []⟩) (some (Body.bstr ""))
        ⟨1, ⟨3, "GET", true, 5000, none⟩, none⟩).body = none ∧
    (some (Body.bstr "") : Option Body) ≠ none := by
  refine ⟨by decide, rfl, by decide⟩

/-- C7 (amended): every terminal error satisfies: `statusCode` is present
iff a response was observed; `body` is present iff a truthy (non-empty)
body was observed; `attempts` always equals the current attempt count;
`retryAfter` is present iff a wait was recorded on the context; and the
message is the HTTP status text only when no error object accompanies the
failure and a response exists, the generic too-many-failed-attempts
message when no error and no response, and the accompanying error's own
message otherwise. -/
theorem c7_terminal_error_fields (err : Option JsError) (response : Option Response)
    (body : Option Body) (ctx : Ctx) :
    ((mkTerminalError err response body ctx).statusCode.isSome ↔ response.isSome) ∧
    ((mkTerminalError err response body ctx).body.isSome ↔ jsTruthyBody body = true) ∧
    (mkTerminalError err response body ctx).attempts = ctx.attempts ∧
    ((mkTerminalError err response body ctx).retryAfter.isSome ↔ ctx.wait.isSome) ∧
    (err = none → ∀ r, response = some r →
      (mkTerminalError err response body ctx).message = statusText r.statusCode) ∧
    (err = none → response = none →
      (mkTerminalError err response body ctx).message = "Too many failed attempts") ∧
    (∀ e, err = some e → (mkTerminalError err response body ctx).message = e.message) := by
  refine ⟨?_, ?_, rfl, Iff.rfl, ?_, ?_, ?_⟩
  · cases response <;> simp [mkTerminalError]
  · by_cases ht : jsTruthyBody body = true
    · have hb : body.isSome = true := by
        cases body with
        | none => simp [jsTruthyBody] at ht
        | some b => rfl
      simp [mkTerminalError, ht, hb]
    · simp [mkTerminalError, ht, Bool.not_eq_true _ ▸ ht]
  · rintro h r rfl
    subst h
    rfl
  · rintro h rfl
    subst h
    rfl
  · rintro e rfl
    rfl

/-- C7 (witness): a plain budget-exhaustion failure with a 404 response
and non-empty body gets the HTTP status text as its message. -/
theorem c7_terminal_error_fields_witness :
    (mkTerminalError none (some ⟨404, []⟩) (some (Body.bstr "x"))
        ⟨3, ⟨3, "GET", false, 5000, none⟩, some 7⟩).message = statusText 404 :=
  (c7_terminal_error_fields none (some ⟨404, []⟩) (some (Body.bstr "x"))
    ⟨3, ⟨3, "GET", false, 5000, none⟩, some 7⟩).2.2.2.2.1 rfl ⟨404, []⟩ rfl

/-! ### C8 — 500 responses and the method gate -/

/-- C8: a 500 response on a non-GET method fails immediately, whatever
the attempt number; on GET it is retried while `attempts < 2` (given at
least the module's configured attempt budget of `maxAttempts ≥ 2`) and
fails once `attempts ≥ 2`. The hypotheses restrict to the paths that
reach the status-code rules: no transport error, and the JSON expectation
(when configured) satisfied. -/
theorem c8_server_error_method_gate (r : Response) (body : Option Body) (ctx : Ctx)
    (h500 : r.statusCode = 500)
    (hjson : ctx.options.json = true → jsTypeofObject body = true)
    (hmax : 2 ≤ ctx.options.maxAttempts) :
    (ctx.options.method ≠ "GET" →
      retryStrategy none (some r) body ctx = Except.ok Verdict.fail) ∧
    (ctx.options.method = "GET" →
      retryStrategy none (some r) body ctx =
        Except.ok (if 2 ≤ ctx.attempts then Verdict.fail else Verdict.retry)) := by
  have hjfalse : (ctx.options.json && (!jsTruthyBody body || !jsTypeofObject body)) = false := by
    cases hj : ctx.options.json
    · simp
    · have ht := hjson hj
      have htr : jsTruthyBody body = true := by
        cases body with
        | none => simp [jsTypeofObject] at ht
        | some b =>
          cases b with
          | bstr s => simp [jsTypeofObject] at ht
          | bobj => rfl
      simp [hj, htr, ht]
  constructor
  · intro hm
    simp [retryStrategy, networkErrorClass, hjfalse, h500, hm]
  · intro hm
    by_cases h2 : 2 ≤ ctx.attempts
    · simp [retryStrategy, networkErrorClass, hjfalse, h500, hm, h2]
    · have hlt : ¬ ctx.attempts ≥ ctx.options.maxAttempts := by omega
      simp [retryStrategy, networkErrorClass, hjfalse, h500, hm, h2, hlt]

/-- C8 (witness): a first-attempt 500 on GET under the configured
defaults is retried. -/
theorem c8_server_error_method_gate_witness :
    retryStrategy none (some ⟨500, []⟩) (some Body.bobj)
        ⟨1, ⟨3, "GET", false, 5000, none⟩, none⟩ = Except.ok Verdict.retry :=
  (c8_server_error_method_gate ⟨500, []⟩ (some Body.bobj)
    ⟨1, ⟨3, "GET", false, 5000, none⟩, none⟩ rfl (fun hj => nomatch hj) (by decide)).2 rfl

/-! ### C4 — at-most-once delivery -/

/-- A completion continuation as stored in `this._callback` or
`this._reject`: either the caller's original (real) continuation or the
`noop` installed at lines 145-149. -/
inductive Chan where
  | real
  | noop
  deriving Repr, DecidableEq

/-- The completion channels of the requestretry request object that
`errorHandler` manipulates at lines 143-149. -/
structure Channels where
  cb : Option Chan
  rej : Option Chan
  deriving Repr, DecidableEq

/-- Modelled from the spec: `this.reply` belongs to the external
`requestretry` package, not to this repository; per the spec it delivers
the result through the caller's completion channel — the stored callback
when one exists, otherwise the stored promise rejector. The value counts
deliveries that reach the caller's real channel (a `noop` swallows the
result). -/
def reply (s : Channels) : Nat :=
  match s.cb with
  | some Chan.real => 1
  | some Chan.noop => 0
  | none =>
    match s.rej with
    | some Chan.real => 1
    | some Chan.noop => 0
    | none => 0

/-- Lines 145-149: replace `this._callback` with `noop` when present,
otherwise replace `this._reject` with `noop`. -/
def neutralize (s : Channels) : Channels :=
  match s.cb with
  | some _ => ⟨some Chan.noop, s.rej⟩
  | none =>
    match s.rej with
    | some _ => ⟨none, some Chan.noop⟩
    | none => s

/-- `errorHandler` (lines 121-153) in full: build the terminal error,
deliver it through `this.reply`, then neutralize the callbacks. Returns
the error, the channel state after the call, and the number of real
deliveries the call made. -/
def errorHandler (err : Option JsError) (response : Option Response) (body : Option Body)
    (ctx : Ctx) (s : Channels) : TerminalError × Channels × Nat :=
  (mkTerminalError err response body ctx, neutralize s, reply s)

/-- Completion-relevant events after a terminal error: a second entry
into `errorHandler` (e.g. the `process.nextTick` callback of line 106),
or a late timer firing whose attempt eventually completes through
`this.reply`. -/
inductive Ev where
  | handle
  | fire

/-- Channel-state transition and real-delivery count of one event. The
`handle` case is exactly the channel effect of `errorHandler`. -/
def evStep (s : Channels) : Ev → Channels × Nat
  | Ev.handle => (neutralize s, reply s)
  | Ev.fire => (s, reply s)

/-- Total number of results delivered to the caller's real completion
channel over a sequence of events. -/
def runEvents (s : Channels) : List Ev → Nat
  | [] => 0
  | e :: rest => (evStep s e).2 + runEvents (evStep s e).1 rest

theorem reply_le_one (s : Channels) : reply s ≤ 1 := by
  obtain ⟨cb, rej⟩ := s
  cases cb with
  | some c => cases c <;> simp [reply]
  | none => cases rej with
    | some c => cases c <;> simp [reply]
    | none => simp [reply]

theorem reply_neutralize (s : Channels) : reply (neutralize s) = 0 := by
  obtain ⟨cb, rej⟩ := s
  cases cb with
  | some c => simp [neutralize, reply]
  | none => cases rej with
    | some c => simp [neutralize, reply]
    | none => simp [neutralize, reply]

theorem runEvents_of_reply_eq_zero (evs : List Ev) :
    ∀ s : Channels, reply s = 0 → runEvents s evs = 0 := by
  induction evs with
  | nil => intro s _; rfl
  | cons e rest ih =>
    intro s h
    cases e with
    | handle =>
      simpa [runEvents, evStep, h] using ih (neutralize s) (reply_neutralize s)
    | fire => simpa [runEvents, evStep, h] using ih s h

/-- C4: one `errorHandler` run followed by any sequence of later events —
further `errorHandler` entries or late timer firings that complete
through `this.reply` — delivers at most one result to the caller's real
completion channel: the neutralization at lines 145-149 turns every
subsequent completion path into a no-op. -/
theorem c4_at_most_once_delivery (err : Option JsError) (response : Option Response)
    (body : Option Body) (ctx : Ctx) (s : Channels) (rest : List Ev) :
    (errorHandler err response body ctx s).2.2 +
      runEvents (errorHandler err response body ctx s).2.1 rest ≤ 1 := by
  show reply s + runEvents (neutralize s) rest ≤ 1
  rw [runEvents_of_reply_eq_zero rest (neutralize s) (reply_neutralize s)]
  simpa using reply_le_one s

end RequestRetryDayjs
